import Mathlib

/-!
Shallow embedding of `src/index.js` (an Express + whatsapp-web.js multi-session
gateway) and verification of the specification's claims about it.

The source keeps, per session:
  * closure-local variables `qrCodeData` / `clientReady` (lines 41-42),
    mutated by the whatsapp client's event handlers (lines 44-82);
  * a stored record `sessions[sessionId] = { client, qrCodeData, clientReady }`
    (line 87), which copies the *values* of those variables at creation time.

The HTTP handlers (`GET /qr`, `GET /send-message`, `POST /send-message`,
`POST /logout`) read the stored record.  External effects (socket broadcasts,
whatsapp client calls, file-system operations) are modelled as explicit
result data so the handlers stay pure and executable.
-/

/-- The stored session record: what `sessions[sessionId] = { client, qrCodeData,
clientReady }` (index.js line 87) keeps.  The `client` handle is not data we
need; `sessionDir` models the property of the same name that the logout handler
destructures (line 200) — the creation site never sets it, so it is `none`
(JavaScript `undefined`). -/
structure SessionRecord where
  qrCodeData : String
  clientReady : Bool
  sessionDir : Option String
deriving DecidableEq, Repr

/-- The closure-local variables `qrCodeData` and `clientReady` of
`createNewClientSession` (index.js lines 41-42), the ones the client event
handlers actually mutate. -/
structure ClosureState where
  qrCodeData : String
  clientReady : Bool
deriving DecidableEq, Repr

/-- Asynchronous events raised by the external whatsapp client (index.js
lines 44-82).  A `qr` event carries the result of `qrcode.toDataURL`:
`some url` on success, `none` when encoding failed (the `err` branch,
line 47). -/
inductive ClientEvent where
  | qr (encodeResult : Option String)
  | ready
  | authenticated
  | authFailure (msg : String)
  | disconnected (reason : String)
deriving DecidableEq, Repr

/-- Socket.IO broadcasts performed via `io.emit` in the event handlers. -/
inductive Notification where
  | qr (sessionId : String) (qrCodeData : String)
  | ready (sessionId : String)
  | authenticated (sessionId : String)
  | authFailure (sessionId : String) (message : String)
  | disconnected (sessionId : String) (reason : String)
deriving DecidableEq, Repr

/-- Invocations of the external whatsapp client performed by HTTP handlers. -/
inductive ClientCall where
  | sendMessage (chatId : String) (message : String)
  | clientLogout
  | clientDestroy
deriving DecidableEq, Repr

/-- Ordered trace of the effectful steps of the logout handler (index.js
lines 199-213): the two client teardown calls, the auth-store directory
removal, and the registry deletion. -/
inductive LogoutAction where
  | clientLogout
  | clientDestroy
  | removeStore (dir : String)
  | deleteRecord (sessionId : String)
deriving DecidableEq, Repr

/-- HTTP responses produced by the handlers. -/
inductive HttpResponse where
  | notFound (body : String)
  | badRequest (body : String)
  | ok (body : String)
  | redirect (location : String)
  | serverError (body : String)
deriving DecidableEq, Repr

/-- The numeric status the Express response carries. -/
def HttpResponse.status : HttpResponse → Nat
  | .notFound _ => 404
  | .badRequest _ => 400
  | .ok _ => 200
  | .redirect _ => 302
  | .serverError _ => 500

/-- Association-list lookup: models reading `m[key]` on a JavaScript object
(absent key gives `undefined`, modelled as `none`). -/
def alGet {α : Type} (l : List (String × α)) (key : String) : Option α :=
  l.lookup key

/-- Association-list update: models `m[key] = v` on a JavaScript object
(silently overwrites an existing entry). -/
def alSet {α : Type} (l : List (String × α)) (key : String) (v : α) :
    List (String × α) :=
  (key, v) :: l.filter (fun p => p.1 ≠ key)

/-- Association-list removal: models `delete m[key]`. -/
def alRemove {α : Type} (l : List (String × α)) (key : String) :
    List (String × α) :=
  l.filter (fun p => p.1 ≠ key)

/-- One client event handler dispatch (index.js lines 44-82), acting on the
closure-local state and returning the broadcasts it emits:
  * `qr` (44-56): on encode success store the data URL, reset `clientReady`,
    emit `qr`; on encode failure only log;
  * `ready` (59-64): clear `qrCodeData`, set `clientReady`, emit `ready`;
  * `authenticated` (66-69): emit only — `qrCodeData` is left untouched;
  * `auth_failure` (71-75): clear `qrCodeData`, emit `auth_failure`;
  * `disconnected` (77-82): clear `qrCodeData`, reset `clientReady`, emit
    `disconnected`. -/
def handleClientEvent (sessionId : String) (c : ClosureState) :
    ClientEvent → ClosureState × List Notification
  | .qr none => (c, [])
  | .qr (some url) =>
      ({ qrCodeData := url, clientReady := false }, [.qr sessionId url])
  | .ready =>
      ({ qrCodeData := "", clientReady := true }, [.ready sessionId])
  | .authenticated => (c, [.authenticated sessionId])
  | .authFailure msg =>
      ({ c with qrCodeData := "" }, [.authFailure sessionId msg])
  | .disconnected reason =>
      ({ qrCodeData := "", clientReady := false },
       [.disconnected sessionId reason])

/-- Whole-process state: the stored registry `sessions`, the closure-local
variables of each live `createNewClientSession` call, and the log of socket
broadcasts. -/
structure SystemState where
  sessions : List (String × SessionRecord)
  closures : List (String × ClosureState)
  notifications : List Notification
deriving DecidableEq, Repr

/-- `createNewClientSession` (index.js lines 34-90): initialises the closure
variables to `("", false)` (lines 41-42) and stores
`sessions[sessionId] = { client, qrCodeData, clientReady }` (line 87) — a
snapshot of those creation-time values.  No check that `sessionId` is already
present is performed; an existing entry is overwritten.  The stored object has
no `sessionDir` property, hence `none`. -/
def createNewClientSession (st : SystemState) (sessionId : String) :
    SystemState :=
  { st with
    sessions := alSet st.sessions sessionId
      { qrCodeData := "", clientReady := false, sessionDir := none },
    closures := alSet st.closures sessionId
      { qrCodeData := "", clientReady := false } }

/-- Delivery of one asynchronous client event for a session: the handler runs
on that session's closure-local state; the stored registry record is not
touched. -/
def deliverEvent (st : SystemState) (sessionId : String) (e : ClientEvent) :
    SystemState :=
  match alGet st.closures sessionId with
  | none => st
  | some c =>
      let r := handleClientEvent sessionId c e
      { st with
        closures := alSet st.closures sessionId r.1,
        notifications := st.notifications ++ r.2 }

/-- Delivery of a sequence of client events, each addressed to a session id. -/
def runEvents (st : SystemState) (events : List (String × ClientEvent)) :
    SystemState :=
  events.foldl (fun s pe => deliverEvent s pe.1 pe.2) st

/-- The evolution of one session's closure-local state alone under a sequence
of its client's events. -/
def runClosure (sessionId : String) (c : ClosureState)
    (events : List ClientEvent) : ClosureState :=
  events.foldl (fun s e => (handleClientEvent sessionId s e).1) c

/-- Abbreviated markup of the QR page the `/qr` handler sends (index.js
lines 107-127): the embedded image uses the stored data URL and the inline
script subscribes to the `ready` broadcast for this session id. -/
def qrPageHtml (sessionId qrCodeData : String) : String :=
  "<html><img src=" ++ qrCodeData ++
    "><p>Silakan scan QR code dengan WhatsApp Anda.</p>" ++
    "<script>subscribe ready for " ++ sessionId ++ "</script></html>"

/-- Abbreviated markup of the send-message form (index.js lines 143-155). -/
def sendFormHtml (sessionId : String) : String :=
  "<form action=/send-message/" ++ sessionId ++ " method=POST>...</form>" ++
    "<form action=/logout/" ++ sessionId ++ " method=POST>...</form>"

/-- `GET /qr/:sessionId` (index.js lines 93-131): 404 when the id is absent;
otherwise branch on the *stored* record's `clientReady` and `qrCodeData`
(line 101): redirect when ready, serve the QR page when a QR data URL is
present (JavaScript truthiness: any non-empty string), else the
not-yet-available text. -/
def getQr (sessions : List (String × SessionRecord)) (sessionId : String) :
    HttpResponse :=
  match alGet sessions sessionId with
  | none => .notFound "Session not found."
  | some session =>
      if session.clientReady then
        .redirect ("/send-message/" ++ sessionId)
      else if session.qrCodeData ≠ "" then
        .ok (qrPageHtml sessionId session.qrCodeData)
      else
        .ok "QR code belum tersedia. Silakan coba lagi nanti."

/-- `GET /send-message/:sessionId` (index.js lines 135-156): redirect to the
QR page unless the session exists and its stored `clientReady` is true, in
which case the form is served. -/
def getSendMessage (sessions : List (String × SessionRecord))
    (sessionId : String) : HttpResponse :=
  match alGet sessions sessionId with
  | none => .redirect ("/qr/" ++ sessionId)
  | some session =>
      if session.clientReady then .ok (sendFormHtml sessionId)
      else .redirect ("/qr/" ++ sessionId)

/-- JavaScript falsiness of a string-valued body field: `!x` is true when the
field is absent (`undefined`) or the empty string. -/
def isFalsyStr : Option String → Bool
  | none => true
  | some s => decide (s = "")

/-- `number.replace(/\D/g, '')` (index.js line 175): keep only the decimal
digits of the input. -/
def formatNumber (number : String) : String :=
  String.mk (number.toList.filter Char.isDigit)

/-- `POST /send-message/:sessionId` (index.js lines 159-188).  404 when the id
is absent; 400 when `number` or `message` is falsy; otherwise normalise the
number, append `@c.us`, and call `client.sendMessage` — `sendOk` says whether
that external call succeeds (redirect to `/qr`) or throws (500).  Returns the
registry as the handler leaves it (it never writes to `sessions`) together
with the response and the client calls made. -/
def postSendMessage (sessions : List (String × SessionRecord))
    (sessionId : String) (number message : Option String) (sendOk : Bool) :
    List (String × SessionRecord) × HttpResponse × List ClientCall :=
  match alGet sessions sessionId with
  | none => (sessions, .notFound "Session not found.", [])
  | some _ =>
      if isFalsyStr number || isFalsyStr message then
        (sessions, .badRequest "Please provide both number and message.", [])
      else
        let chatId := formatNumber (number.getD "") ++ "@c.us"
        let call := ClientCall.sendMessage chatId (message.getD "")
        if sendOk then
          (sessions, .redirect ("/qr/" ++ sessionId), [call])
        else
          (sessions, .serverError "Failed to send message.", [call])

/-- `fs.existsSync` as the logout handler uses it (index.js line 206): on a
string path, whether the path exists on disk; on `undefined` (the record never
stores `sessionDir`) Node's `existsSync` swallows the path-validation error
and returns `false`. -/
def existsSync (disk : List String) : Option String → Bool
  | none => false
  | some p => disk.contains p

/-- `POST /logout/:sessionId` (index.js lines 191-219).  404 when the id is
absent.  Otherwise `client.logout()` then `client.destroy()` run (either may
throw: `logoutThrows` / `destroyThrows`), then the session directory is
removed when `existsSync` says it exists, then `delete sessions[sessionId]`,
then the 200 response.  Any throw lands in the catch block: 500, with the
registry and disk untouched.  Returns (response, registry, disk, ordered
action trace). -/
def postLogout (sessions : List (String × SessionRecord))
    (disk : List String) (sessionId : String)
    (logoutThrows destroyThrows : Bool) :
    HttpResponse × List (String × SessionRecord) × List String ×
      List LogoutAction :=
  match alGet sessions sessionId with
  | none => (.notFound "Session not found.", sessions, disk, [])
  | some session =>
      if logoutThrows then
        (.serverError "Failed to log out.", sessions, disk,
         [.clientLogout])
      else if destroyThrows then
        (.serverError "Failed to log out.", sessions, disk,
         [.clientLogout, .clientDestroy])
      else if existsSync disk session.sessionDir then
        (.ok "Logged out and session cleared. Scan a new QR code.",
         alRemove sessions sessionId,
         disk.filter (fun p => p ≠ session.sessionDir.getD ""),
         [.clientLogout, .clientDestroy,
          .removeStore (session.sessionDir.getD ""),
          .deleteRecord sessionId])
      else
        (.ok "Logged out and session cleared. Scan a new QR code.",
         alRemove sessions sessionId, disk,
         [.clientLogout, .clientDestroy, .deleteRecord sessionId])

/-! ## Spec-side state machine (for refinement claims)

Modelled from the spec: section 4.2 gives the per-session state machine the
code is claimed to refine; the code itself has no explicit state field, only
the closure variables, so claims phrased in terms of states are compared
against this machine. -/

/-- Modelled from the spec: the session states of section 4.2. -/
inductive SpecState where
  | created
  | awaitingScan
  | authenticated
  | ready
  | failed
  | disconnected
deriving DecidableEq, Repr

/-- Modelled from the spec: the transition function of the section 4.2 table.
A pairing-code event whose encode failed leaves the state unchanged (section 7:
decode failure is logged and the session simply fails to advance).  Triggers
with no edge from the current state leave it unchanged. -/
def specStep : SpecState → ClientEvent → SpecState
  | s, .qr none => s
  | .created, .qr (some _) => .awaitingScan
  | .awaitingScan, .qr (some _) => .awaitingScan
  | .awaitingScan, .authenticated => .authenticated
  | .authenticated, .ready => .ready
  | .awaitingScan, .authFailure _ => .failed
  | .authenticated, .authFailure _ => .failed
  | .ready, .disconnected _ => .disconnected
  | s, _ => s

/-- Modelled from the spec: whether the section 4.2 table defines an edge for
this trigger from this state (section 3: a record transitions only along
defined edges). -/
def admissible : SpecState → ClientEvent → Bool
  | .created, .qr _ => true
  | .awaitingScan, .qr _ => true
  | .awaitingScan, .authenticated => true
  | .authenticated, .ready => true
  | .awaitingScan, .authFailure _ => true
  | .authenticated, .authFailure _ => true
  | .ready, .disconnected _ => true
  | _, _ => false

/-- Whether a whole event sequence follows the section 4.2 edges from a given
start state. -/
def admissibleFrom (s : SpecState) : List ClientEvent → Bool
  | [] => true
  | e :: rest => admissible s e && admissibleFrom (specStep s e) rest

/-- The spec-side state reached from Created by an event sequence. -/
def specStateOf (events : List ClientEvent) : SpecState :=
  events.foldl specStep .created

/-! ## Helper lemmas -/

theorem alGet_alSet_self {α : Type} (l : List (String × α)) (k : String)
    (v : α) : alGet (alSet l k v) k = some v := by
  simp [alGet, alSet, List.lookup]

theorem alGet_alRemove_self {α : Type} (l : List (String × α)) (k : String) :
    alGet (alRemove l k) k = none := by
  induction l with
  | nil => rfl
  | cons a tl ih =>
    rcases a with ⟨k1, v1⟩
    by_cases h : k1 = k
    · simpa [alRemove, alGet, List.filter_cons, h] using ih
    · have h2 : (k == k1) = false := beq_eq_false_iff_ne.mpr fun e => h e.symm
      simp only [alRemove, alGet, decide_not] at ih ⊢
      rw [List.filter_cons]
      simp only [decide_not, h, decide_False, Bool.not_false, if_true,
        List.lookup, h2]
      exact ih

theorem deliverEvent_sessions (st : SystemState) (sessionId : String)
    (e : ClientEvent) : (deliverEvent st sessionId e).sessions = st.sessions := by
  unfold deliverEvent
  split <;> rfl

theorem runEvents_sessions (events : List (String × ClientEvent)) :
    ∀ st : SystemState, (runEvents st events).sessions = st.sessions := by
  induction events with
  | nil => intro st; rfl
  | cons e rest ih =>
    intro st
    have h : runEvents st (e :: rest) = runEvents (deliverEvent st e.1 e.2) rest := rfl
    rw [h, ih, deliverEvent_sessions]

/-- One admissible step preserves the relation between the closure-local
`qrCodeData` and the spec-side state: the payload is non-empty exactly in
AwaitingScan and Authenticated (the `authenticated` handler does not clear
it). -/
theorem qr_inv_step (sessionId : String) (s : SpecState) (c : ClosureState)
    (e : ClientEvent)
    (hP : c.qrCodeData ≠ "" ↔ (s = .awaitingScan ∨ s = .authenticated))
    (hadm : admissible s e = true)
    (hgood : ∀ u, e = .qr (some u) → u ≠ "") :
    (handleClientEvent sessionId c e).1.qrCodeData ≠ "" ↔
      (specStep s e = .awaitingScan ∨ specStep s e = .authenticated) := by
  cases e with
  | qr o =>
    cases o with
    | none => cases s <;> simp_all [admissible, specStep, handleClientEvent]
    | some u =>
      have hu : u ≠ "" := hgood u rfl
      cases s <;> simp_all [admissible, specStep, handleClientEvent]
  | ready => cases s <;> simp_all [admissible, specStep, handleClientEvent]
  | authenticated => cases s <;> simp_all [admissible, specStep, handleClientEvent]
  | authFailure msg => cases s <;> simp_all [admissible, specStep, handleClientEvent]
  | disconnected reason => cases s <;> simp_all [admissible, specStep, handleClientEvent]

/-- The invariant of `qr_inv_step` carried along a whole admissible event
sequence. -/
theorem qr_inv_run (sessionId : String) (events : List ClientEvent) :
    ∀ (s : SpecState) (c : ClosureState),
      (c.qrCodeData ≠ "" ↔ (s = .awaitingScan ∨ s = .authenticated)) →
      admissibleFrom s events = true →
      (∀ u, ClientEvent.qr (some u) ∈ events → u ≠ "") →
      ((runClosure sessionId c events).qrCodeData ≠ "" ↔
        (events.foldl specStep s = .awaitingScan ∨
          events.foldl specStep s = .authenticated)) := by
  induction events with
  | nil => intro s c hP _ _; simpa [runClosure] using hP
  | cons e rest ih =>
    intro s c hP hadm hgood
    have hsplit : admissible s e = true ∧ admissibleFrom (specStep s e) rest = true := by
      simpa [admissibleFrom, Bool.and_eq_true] using hadm
    have hstep := qr_inv_step sessionId s c e hP hsplit.1
      (fun u he => hgood u (he ▸ List.mem_cons_self e rest))
    have hrun : runClosure sessionId c (e :: rest) =
        runClosure sessionId (handleClientEvent sessionId c e).1 rest := rfl
    have hfold : (e :: rest).foldl specStep s = rest.foldl specStep (specStep s e) := rfl
    rw [hrun, hfold]
    exact ih (specStep s e) (handleClientEvent sessionId c e).1 hstep hsplit.2
      (fun u hu => hgood u (List.mem_cons_of_mem e hu))

/-! ## Claim theorems -/

/-- C9 counterexample: the claim says session creation fails (does not
overwrite) when the id is already present.  On a registry already holding an
entry for `"a"` whose record has `clientReady = true`, `createNewClientSession`
does not fail: it silently replaces the record with the fresh one. -/
theorem c9_create_overwrites_counterexample :
    alGet (createNewClientSession
        { sessions := [("a", { qrCodeData := "", clientReady := true, sessionDir := none })],
          closures := [("a", { qrCodeData := "", clientReady := true })],
          notifications := [] } "a").sessions "a" =
      some { qrCodeData := "", clientReady := false, sessionDir := none } ∧
    ({ qrCodeData := "", clientReady := false, sessionDir := none } : SessionRecord) ≠
      { qrCodeData := "", clientReady := true, sessionDir := none } := by
  decide

/-- C9 (amended): `createNewClientSession` performs no presence check on the
id; insertion under an id already in the registry silently overwrites the
existing record with the fresh creation-time record, it never fails. -/
theorem c9_create_no_presence_check (st : SystemState) (sessionId : String) :
    alGet (createNewClientSession st sessionId).sessions sessionId =
      some { qrCodeData := "", clientReady := false, sessionDir := none } := by
  simp [createNewClientSession, alGet_alSet_self]

/-- C10: the record stored at creation is a value snapshot: after any sequence
of client events delivered to any sessions, the stored record still has
`qrCodeData = ""` and `clientReady = false`, and the handlers that read the
stored fields (`GET /qr/:id`, `GET /send-message/:id`) observe exactly those
creation-time values: `/qr` renders the not-yet-available text and
`/send-message` redirects back to `/qr`. -/
theorem c10_stored_record_frozen (st : SystemState) (sessionId : String)
    (events : List (String × ClientEvent)) :
    alGet (runEvents (createNewClientSession st sessionId) events).sessions sessionId =
        some { qrCodeData := "", clientReady := false, sessionDir := none } ∧
    getQr (runEvents (createNewClientSession st sessionId) events).sessions sessionId =
        .ok "QR code belum tersedia. Silakan coba lagi nanti." ∧
    getSendMessage (runEvents (createNewClientSession st sessionId) events).sessions sessionId =
        .redirect ("/qr/" ++ sessionId) := by
  have hs : (runEvents (createNewClientSession st sessionId) events).sessions =
      (createNewClientSession st sessionId).sessions :=
    runEvents_sessions events _
  have hl : alGet (createNewClientSession st sessionId).sessions sessionId =
      some { qrCodeData := "", clientReady := false, sessionDir := none } :=
    alGet_alSet_self _ _ _
  rw [hs]
  refine ⟨hl, ?_, ?_⟩
  · unfold getQr
    rw [hl]
    rfl
  · unfold getSendMessage
    rw [hl]
    rfl

/-- C7: two consecutive successfully-encoded pairing-code events leave exactly
one current `qrCodeData`, the one of the latest event (replacement, not
accumulation), and each of the two handler runs broadcasts one `qr`
notification. -/
theorem c7_qr_last_write_wins (sessionId : String) (c : ClosureState)
    (u1 u2 : String) :
    runClosure sessionId c [.qr (some u1), .qr (some u2)] =
        { qrCodeData := u2, clientReady := false } ∧
    (handleClientEvent sessionId c (.qr (some u1))).2 = [.qr sessionId u1] ∧
    (handleClientEvent sessionId
        (handleClientEvent sessionId c (.qr (some u1))).1
        (.qr (some u2))).2 = [.qr sessionId u2] :=
  ⟨rfl, rfl, rfl⟩

/-- C4 fails on the code: after the client for session `"a"` raises `ready`
(liveness state Ready, closure `clientReady = true`), `GET /qr/a` does not
redirect to the send-message view — it still renders the not-yet-available
text, because the handler reads the stored snapshot whose `clientReady` is
the creation-time `false`.  Likewise after a pairing-code event the QR page
is not rendered. -/
theorem c4_qr_reads_stale_snapshot :
    (alGet (deliverEvent (createNewClientSession
        { sessions := [], closures := [], notifications := [] } "a")
        "a" .ready).closures "a" =
      some { qrCodeData := "", clientReady := true }) ∧
    getQr (deliverEvent (createNewClientSession
        { sessions := [], closures := [], notifications := [] } "a")
        "a" .ready).sessions "a" =
      .ok "QR code belum tersedia. Silakan coba lagi nanti." ∧
    getQr (deliverEvent (createNewClientSession
        { sessions := [], closures := [], notifications := [] } "a")
        "a" (.qr (some "URL"))).sessions "a" =
      .ok "QR code belum tersedia. Silakan coba lagi nanti." := by
  decide

/-- C2 fails on the code: for the session `"a"` created by
`createNewClientSession` with its auth store present on disk, a fully
successful `POST /logout/a` returns the 200 success response and removes the
registry entry (a subsequent `get` is NotFound), but the disk is unchanged:
the record has no `sessionDir`, `existsSync(undefined)` is `false`, so
`rmdirSync` never runs and no `removeStore` action appears in the trace. -/
theorem c2_logout_leaves_auth_store :
    postLogout (createNewClientSession
        { sessions := [], closures := [], notifications := [] } "a").sessions
        ["auth-store-a"] "a" false false =
      (.ok "Logged out and session cleared. Scan a new QR code.",
       [], ["auth-store-a"],
       [.clientLogout, .clientDestroy, .deleteRecord "a"]) := by
  decide

/-- C1 counterexample: session `"a"` has just been created (state Created, the
closure and the stored record both say not ready), yet `POST /send-message/a`
with both fields present is not rejected: it invokes the external client's
`sendMessage` and redirects. -/
theorem c1_send_while_not_ready_counterexample :
    (alGet (createNewClientSession
        { sessions := [], closures := [], notifications := [] } "a").closures "a" =
      some { qrCodeData := "", clientReady := false }) ∧
    postSendMessage (createNewClientSession
        { sessions := [], closures := [], notifications := [] } "a").sessions
        "a" (some "123") (some "hi") true =
      ((createNewClientSession
          { sessions := [], closures := [], notifications := [] } "a").sessions,
       .redirect "/qr/a", [.sendMessage "123@c.us" "hi"]) := by
  decide

/-- C1 (amended): `POST /send-message/:id` performs no readiness check at all:
whenever the record exists and both `number` and `message` are truthy, the
message is delegated to the external client's `sendMessage` regardless of the
session's state; only a missing record or a missing/empty field is rejected. -/
theorem c1_send_has_no_readiness_check
    (sessions : List (String × SessionRecord)) (sessionId : String)
    (r : SessionRecord) (number message : Option String) (sendOk : Bool)
    (hr : alGet sessions sessionId = some r)
    (hn : isFalsyStr number = false) (hm : isFalsyStr message = false) :
    (postSendMessage sessions sessionId number message sendOk).2.2 =
        [.sendMessage (formatNumber (number.getD "") ++ "@c.us") (message.getD "")] ∧
    ((postSendMessage sessions sessionId number message sendOk).2.1 =
        .redirect ("/qr/" ++ sessionId) ∨
      (postSendMessage sessions sessionId number message sendOk).2.1 =
        .serverError "Failed to send message.") := by
  unfold postSendMessage
  rw [hr]
  simp only [hn, hm, Bool.or_self, Bool.false_eq_true, if_false]
  cases sendOk <;> simp

/-- C1 witness: the amended theorem applied at a concrete non-ready session. -/
theorem c1_send_has_no_readiness_check_witness :
    (postSendMessage
        [("a", { qrCodeData := "", clientReady := false, sessionDir := none })]
        "a" (some "5") (some "hi") true).2.2 =
      [.sendMessage (formatNumber ((some "5").getD "") ++ "@c.us")
        ((some "hi").getD "")] :=
  (c1_send_has_no_readiness_check
    [("a", { qrCodeData := "", clientReady := false, sessionDir := none })]
    "a" { qrCodeData := "", clientReady := false, sessionDir := none }
    (some "5") (some "hi") true (by decide) (by decide) (by decide)).1

/-- C5: `POST /send-message/:id` reports a 404 when the id is absent and a 400
when either body field is falsy, in both cases leaving the registry exactly as
it was and making no call to the external client. -/
theorem c5_send_error_cases (sessions : List (String × SessionRecord))
    (sessionId : String) (number message : Option String) (sendOk : Bool) :
    (alGet sessions sessionId = none →
      postSendMessage sessions sessionId number message sendOk =
        (sessions, .notFound "Session not found.", []) ∧
      (postSendMessage sessions sessionId number message sendOk).2.1.status = 404) ∧
    (∀ r, alGet sessions sessionId = some r →
      (isFalsyStr number || isFalsyStr message) = true →
      postSendMessage sessions sessionId number message sendOk =
        (sessions, .badRequest "Please provide both number and message.", []) ∧
      (postSendMessage sessions sessionId number message sendOk).2.1.status = 400) := by
  constructor
  · intro h
    unfold postSendMessage
    rw [h]
    exact ⟨rfl, rfl⟩
  · intro r h hf
    unfold postSendMessage
    rw [h]
    simp [hf, HttpResponse.status]

/-- C5 witness: the theorem applied at a missing session and at a present
session with a missing `number` field. -/
theorem c5_send_error_cases_witness :
    postSendMessage [] "a" (some "1") (some "hi") true =
      ([], .notFound "Session not found.", []) ∧
    postSendMessage
        [("b", { qrCodeData := "", clientReady := false, sessionDir := none })]
        "b" none (some "hi") true =
      ([("b", { qrCodeData := "", clientReady := false, sessionDir := none })],
       .badRequest "Please provide both number and message.", []) :=
  ⟨((c5_send_error_cases [] "a" (some "1") (some "hi") true).1 (by decide)).1,
   ((c5_send_error_cases
      [("b", { qrCodeData := "", clientReady := false, sessionDir := none })]
      "b" none (some "hi") true).2
      { qrCodeData := "", clientReady := false, sessionDir := none }
      (by decide) (by decide)).1⟩

/-- C6: the destination is normalised by keeping exactly the digit characters
of `number` and appending the fixed `@c.us` domain suffix; in particular the
input `"+62 812-3456"` is delegated to address `"628123456@c.us"`. -/
theorem c6_number_normalization (sessions : List (String × SessionRecord))
    (sessionId : String) (r : SessionRecord) (m : String) (sendOk : Bool)
    (hr : alGet sessions sessionId = some r) (hm : m ≠ "") :
    (∀ number : String, number ≠ "" →
      (postSendMessage sessions sessionId (some number) (some m) sendOk).2.2 =
        [.sendMessage (String.mk (number.toList.filter Char.isDigit) ++ "@c.us") m]) ∧
    (postSendMessage sessions sessionId (some "+62 812-3456") (some m) sendOk).2.2 =
      [.sendMessage "628123456@c.us" m] := by
  have hgen : ∀ number : String, number ≠ "" →
      (postSendMessage sessions sessionId (some number) (some m) sendOk).2.2 =
        [.sendMessage (String.mk (number.toList.filter Char.isDigit) ++ "@c.us") m] := by
    intro number hn
    unfold postSendMessage
    rw [hr]
    have h1 : isFalsyStr (some number) = false := by simp [isFalsyStr, hn]
    have h2 : isFalsyStr (some m) = false := by simp [isFalsyStr, hm]
    simp only [h1, h2, Bool.or_self, Bool.false_eq_true, if_false]
    cases sendOk <;> simp [formatNumber]
  have he : String.mk ("+62 812-3456".toList.filter Char.isDigit) ++ "@c.us" =
      "628123456@c.us" := by decide
  refine ⟨hgen, ?_⟩
  rw [hgen "+62 812-3456" (by decide), he]

/-- C6 witness: the theorem applied at a concrete session and message. -/
theorem c6_number_normalization_witness :
    (postSendMessage
        [("a", { qrCodeData := "", clientReady := false, sessionDir := none })]
        "a" (some "+62 812-3456") (some "hi") true).2.2 =
      [.sendMessage "628123456@c.us" "hi"] :=
  (c6_number_normalization
    [("a", { qrCodeData := "", clientReady := false, sessionDir := none })]
    "a" { qrCodeData := "", clientReady := false, sessionDir := none }
    "hi" true (by decide) (by decide)).2

/-- C8: on a known id, if client teardown throws, logout answers the generic
500 failure and retains the registry record and the disk untouched (so the
operator can retry); on a fully successful run, the registry deletion is the
last action of the trace, strictly after both teardown calls and any
auth-store removal, and a subsequent lookup of the id is NotFound. -/
theorem c8_logout_teardown_order (sessions : List (String × SessionRecord))
    (disk : List String) (sessionId : String) (session : SessionRecord)
    (lt dt : Bool) (h : alGet sessions sessionId = some session) :
    ((lt = true ∨ dt = true) →
      (postLogout sessions disk sessionId lt dt).1 =
          .serverError "Failed to log out." ∧
      (postLogout sessions disk sessionId lt dt).2.1 = sessions ∧
      (postLogout sessions disk sessionId lt dt).2.2.1 = disk ∧
      LogoutAction.deleteRecord sessionId ∉
        (postLogout sessions disk sessionId lt dt).2.2.2) ∧
    (lt = false → dt = false →
      ∃ pre, (postLogout sessions disk sessionId lt dt).2.2.2 =
          pre ++ [.deleteRecord sessionId] ∧
        LogoutAction.clientLogout ∈ pre ∧
        LogoutAction.clientDestroy ∈ pre ∧
        LogoutAction.deleteRecord sessionId ∉ pre ∧
        alGet (postLogout sessions disk sessionId lt dt).2.1 sessionId = none) := by
  unfold postLogout
  rw [h]
  constructor
  · rintro (hlt | hdt)
    · subst hlt
      simp
    · subst hdt
      cases lt <;> simp
  · rintro hlt hdt
    subst hlt hdt
    by_cases hex : existsSync disk session.sessionDir = true
    · refine ⟨[.clientLogout, .clientDestroy,
        .removeStore (session.sessionDir.getD "")], ?_, ?_, ?_, ?_, ?_⟩
      · simp [hex]
      · simp
      · simp
      · simp
      · simp [hex, alGet_alRemove_self]
    · refine ⟨[.clientLogout, .clientDestroy], ?_, ?_, ?_, ?_, ?_⟩
      · simp [hex]
      · simp
      · simp
      · simp
      · simp [hex, alGet_alRemove_self]

/-- C8 witness: the failure half of the theorem applied at a concrete session
whose `client.logout()` throws. -/
theorem c8_logout_teardown_order_witness :
    (postLogout
        [("a", { qrCodeData := "", clientReady := false, sessionDir := none })]
        [] "a" true false).1 = .serverError "Failed to log out." ∧
    (postLogout
        [("a", { qrCodeData := "", clientReady := false, sessionDir := none })]
        [] "a" true false).2.1 =
      [("a", { qrCodeData := "", clientReady := false, sessionDir := none })] ∧
    (postLogout
        [("a", { qrCodeData := "", clientReady := false, sessionDir := none })]
        [] "a" true false).2.2.1 = ([] : List String) ∧
    LogoutAction.deleteRecord "a" ∉
      (postLogout
        [("a", { qrCodeData := "", clientReady := false, sessionDir := none })]
        [] "a" true false).2.2.2 :=
  (c8_logout_teardown_order
    [("a", { qrCodeData := "", clientReady := false, sessionDir := none })]
    [] "a" { qrCodeData := "", clientReady := false, sessionDir := none }
    true false (by decide)).1 (Or.inl rfl)

/-- C3 counterexample: after a successfully-encoded pairing-code event
followed by the `authenticated` event, the spec-side state is Authenticated,
yet the closure-local `qrCodeData` still holds the latest QR data URL — the
`authenticated` handler (index.js lines 66-69) does not clear it, so the
claimed iff with AwaitingScan fails. -/
theorem c3_qr_not_cleared_on_authenticated_counterexample :
    (runClosure "a" { qrCodeData := "", clientReady := false }
        [.qr (some "Q"), .authenticated]).qrCodeData = "Q" ∧
    specStateOf [.qr (some "Q"), .authenticated] = .authenticated ∧
    ¬ ((runClosure "a" { qrCodeData := "", clientReady := false }
          [.qr (some "Q"), .authenticated]).qrCodeData ≠ "" ↔
        specStateOf [.qr (some "Q"), .authenticated] = .awaitingScan) := by
  decide

/-- C3 (amended): along every event history that follows the spec's state
machine edges and whose successfully-encoded pairing payloads are non-empty,
the closure-local `qrCodeData` is non-empty iff the state is AwaitingScan OR
Authenticated: it is set on every successful pairing-code event and cleared
on the transitions into Ready, Failed and Disconnected, but not on the
transition into Authenticated. -/
theorem c3_qr_payload_iff_scan_or_authenticated (sessionId : String)
    (events : List ClientEvent)
    (hadm : admissibleFrom .created events = true)
    (hgood : ∀ u, ClientEvent.qr (some u) ∈ events → u ≠ "") :
    ((runClosure sessionId { qrCodeData := "", clientReady := false }
        events).qrCodeData ≠ "" ↔
      (specStateOf events = .awaitingScan ∨
        specStateOf events = .authenticated)) :=
  qr_inv_run sessionId events .created
    { qrCodeData := "", clientReady := false } (by decide) hadm hgood

/-- C3 witness: the amended theorem applied to the one-event history of a
successful pairing-code event. -/
theorem c3_qr_payload_iff_witness :
    (admissibleFrom SpecState.created [ClientEvent.qr (some "Q")] = true) ∧
    ((runClosure "a" { qrCodeData := "", clientReady := false }
        [.qr (some "Q")]).qrCodeData ≠ "" ↔
      (specStateOf [.qr (some "Q")] = .awaitingScan ∨
        specStateOf [.qr (some "Q")] = .authenticated)) := by
  refine ⟨by decide, c3_qr_payload_iff_scan_or_authenticated "a"
    [.qr (some "Q")] (by decide) ?_⟩
  intro u hu
  simp only [List.mem_singleton, ClientEvent.qr.injEq, Option.some.injEq] at hu
  subst hu
  decide
